import Mathlib

/-!
Verification of the `Boundary` container of PySplineFit
(`src/pysplinefit/data.py`).

The container orchestrates a curve-fitting core (modules `spline`,
`knots`, `parameterize`, `fitting`, which are external to the inspected
source and are modelled from the spec).  Numpy arrays are embedded as a
shape together with a flat list of rational coordinates; Python
exceptions raised by the setters become `Except String`, and exceptions
raised inside `set_init_curve` / `parameterize` / `fit` (index errors,
missing fields) become `Option` failures.
-/

set_option autoImplicit false

namespace PySplineFit

/-- A numpy `ndarray` modelled by its shape together with its flattened
entries (coordinates are rationals). -/
structure NDArray where
  shape : List Nat
  flat : List ℚ
  deriving DecidableEq

/-- `ndarray.ndim`: the number of axes. -/
def NDArray.ndim (a : NDArray) : Nat := a.shape.length

/-- Scalar indexing `a[i]` of a one-dimensional array; an out-of-range
index is an `IndexError`, modelled as `none`. -/
def NDArray.item (a : NDArray) (i : Nat) : Option ℚ :=
  match a.shape with
  | [n] => if i < n then a.flat.get? i else none
  | _ => none

/-- A 1-D point array built from a coordinate list. -/
def mkPoint (xs : List ℚ) : NDArray := ⟨[xs.length], xs⟩

/-- Modelled from the spec: the curve representation of the missing
module `spline.py` — degree, knot vector and control points, each
possibly still unset as in a freshly constructed `spline.Curve()`. -/
structure Curve where
  degree : Option Nat
  control_points : Option (List (List ℚ))
  knot_vector : Option (List ℚ)
  deriving DecidableEq

/-- Modelled from the spec: `knots.generate_uniform(degree, n)` — a
clamped uniform knot vector with `degree+1` zeros, `n - degree - 1`
interior knots uniformly spaced in `(0,1)`, and `degree+1` ones. -/
def generate_uniform (degree num_ctrlpts : Nat) : List ℚ :=
  List.replicate (degree + 1) 0
    ++ (List.range (num_ctrlpts - degree - 1)).map
        (fun i : ℕ => ((i : ℚ) + 1) / ((num_ctrlpts : ℚ) - (degree : ℚ)))
    ++ List.replicate (degree + 1) 1

/-- `np.linspace a b n`: `n` evenly spaced samples from `a` to `b`
inclusive (for `n = 1` the single sample is `a`; in `ℚ`, division by
zero is zero, so the closed formula also covers that case). -/
def linspace (a b : ℚ) (n : Nat) : List ℚ :=
  (List.range n).map (fun i : ℕ => a + (i : ℚ) * (b - a) / ((n : ℚ) - 1))

/-- The `Boundary` container state (`data.py`).  `Boundary` inherits
`spline.Curve`; of the inherited slots only `_degree` is relevant here.
All slots start as `None` in `__init__`. -/
structure Boundary where
  degree : Option Nat
  data : Option NDArray
  start : Option NDArray
  end_ : Option NDArray
  num_ctrlpts : Option Int
  init_curve : Option Curve
  parameterized_data : Option NDArray
  fit_curve : Option Curve
  deriving DecidableEq

/-- `Boundary.__init__`: every slot is `None`. -/
def Boundary.new : Boundary :=
  ⟨none, none, none, none, none, none, none, none⟩

/-- `True` exactly on the `ok` constructor. -/
def okB (e : Except String Boundary) : Bool :=
  match e with
  | .ok _ => true
  | .error _ => false

/-- The `data` setter: the (array-cast) input must be a 2-D array whose
last dimension is 2 or 3; otherwise a `ValueError` is raised and the
state is unchanged. -/
def Boundary.setData (b : Boundary) (a : NDArray) : Except String Boundary :=
  if a.ndim ≠ 2 then
    .error "Boundary data array must be 2D"
  else if ¬ (a.shape.getLastD 0 = 2 ∨ a.shape.getLastD 0 = 3) then
    .error "Boundary data must be in either R2 or R3"
  else
    .ok { b with data := some a }

/-- The `start` setter: the point must be a 1-D array of length 2 or 3. -/
def Boundary.setStart (b : Boundary) (p : NDArray) : Except String Boundary :=
  if p.ndim ≠ 1 then
    .error "Start point array must be 1D"
  else if ¬ (p.shape.headD 0 = 2 ∨ p.shape.headD 0 = 3) then
    .error "Start point must be in R2 or R3"
  else
    .ok { b with start := some p }

/-- The `end` setter: the point must be a 1-D array of length 2 or 3. -/
def Boundary.setEnd (b : Boundary) (p : NDArray) : Except String Boundary :=
  if p.ndim ≠ 1 then
    .error "End point array must be 1D"
  else if ¬ (p.shape.headD 0 = 2 ∨ p.shape.headD 0 = 3) then
    .error "End point must be in R2 or R3"
  else
    .ok { b with end_ := some p }

/-- The `num_ctrlpts` setter: the (int-cast) count must exceed 3. -/
def Boundary.setNumCtrlpts (b : Boundary) (num : Int) : Except String Boundary :=
  if num ≤ 3 then
    .error "Number of control points must be 3 or more"
  else
    .ok { b with num_ctrlpts := some num }

/-- Modelled from the spec: the degree setter inherited from the missing
module `spline.py`; the spec requires a positive integer `≥ 1`. -/
def Boundary.setDegree (b : Boundary) (d : Int) : Except String Boundary :=
  if d < 1 then
    .error "Degree must be a positive integer"
  else
    .ok { b with degree := some d.toNat }

/-- The curve built by `set_init_curve`: `degree+1` control points
`np.linspace`-interpolated coordinatewise between `start` and `end`
(indices 0, 1 and 2 of both anchors are read unconditionally), with the
uniform knot vector for that control-point count.  Any missing field or
out-of-range index is a raised exception, modelled as `none`. -/
def Boundary.initCurveOf (b : Boundary) : Option Curve := do
  let d ← b.degree
  let s ← b.start
  let e ← b.end_
  let s0 ← s.item 0
  let e0 ← e.item 0
  let s1 ← s.item 1
  let e1 ← e.item 1
  let s2 ← s.item 2
  let e2 ← e.item 2
  let x_vals := linspace s0 e0 (d + 1)
  let y_vals := linspace s1 e1 (d + 1)
  let z_vals := linspace s2 e2 (d + 1)
  let init_ctrlpts := (x_vals.zip (y_vals.zip z_vals)).map
    (fun p => [p.1, p.2.1, p.2.2])
  some { degree := some d
         control_points := some init_ctrlpts
         knot_vector := some (generate_uniform d init_ctrlpts.length) }

/-- `Boundary.set_init_curve`: build the initial curve and store it in
`_init_curve`; a raised exception leaves the state unchanged. -/
def Boundary.set_init_curve (b : Boundary) : Option Boundary :=
  b.initCurveOf.map (fun c => { b with init_curve := some c })

/-- `Boundary.parameterize`, with the external
`parameterize.parameterize_curve` abstracted as `paramF` (a pure
function per the spec: no randomness).  The three branches follow the
source: both curves missing → synthesize the initial curve and
parameterize against it; fit curve missing → parameterize against the
initial curve; otherwise → parameterize against the fit curve. -/
def Boundary.parameterize (paramF : Curve → Option NDArray → NDArray)
    (b : Boundary) : Option Boundary :=
  match b.init_curve, b.fit_curve with
  | none, none =>
      b.initCurveOf.map (fun c =>
        { b with init_curve := some c,
                 parameterized_data := some (paramF c b.data) })
  | some c, none =>
      some { b with parameterized_data := some (paramF c b.data) }
  | _, some f =>
      some { b with parameterized_data := some (paramF f b.data) }

/-- `Boundary.fit`, with the external `fitting.fit_curve_fixed_num_pts`
abstracted as `fitF` (the `logging` switch is a pure side channel per
the spec and is omitted).  The source synthesizes the initial curve when
`_init_curve is None` (the fit curve is not consulted), passes
`(_init_curve, _data, _num_ctrlpts)` to the fitter, stores the result in
`_fit_curve` and then calls `parameterize`. -/
def Boundary.fit (paramF : Curve → Option NDArray → NDArray)
    (fitF : Curve → Option NDArray → Option Int → Curve)
    (b : Boundary) : Option Boundary := do
  let b1 ← match b.init_curve with
    | none => b.set_init_curve
    | some _ => some b
  let c ← b1.init_curve
  let final_fit := fitF c b1.data b1.num_ctrlpts
  Boundary.parameterize paramF { b1 with fit_curve := some final_fit }

/-- The straight-line initial curve exactly as the spec describes it:
`degree+1` control points evenly spaced from the start anchor to the end
anchor (the `i`-th point is `start + i * (end - start) / degree`), with
the uniform clamped knot vector `generate_uniform degree (degree+1)`. -/
def specInitCurve (d : Nat) (s0 s1 s2 e0 e1 e2 : ℚ) : Curve :=
  { degree := some d
    control_points := some ((List.range (d + 1)).map (fun i : ℕ =>
      [s0 + (i : ℚ) * (e0 - s0) / (d : ℚ),
       s1 + (i : ℚ) * (e1 - s1) / (d : ℚ),
       s2 + (i : ℚ) * (e2 - s2) / (d : ℚ)]))
    knot_vector := some (generate_uniform d (d + 1)) }

/-- A concrete instance of the abstracted `parameterize_curve`. -/
def paramF0 : Curve → Option NDArray → NDArray := fun _ _ => ⟨[], []⟩

/-- A concrete instance of the abstracted `fit_curve_fixed_num_pts`. -/
def fitF0 : Curve → Option NDArray → Option Int → Curve := fun c _ _ => c

/-- A boundary carrying degree 5. -/
def bDeg5 : Boundary := { Boundary.new with degree := some 5 }

/-- A boundary with degree 3 and R² anchors. -/
def b2d : Boundary :=
  { Boundary.new with degree := some 3,
                      start := some (mkPoint [0, 0]),
                      end_ := some (mkPoint [1, 1]) }

/-- Two rows of 3-D data. -/
def arrA : NDArray := ⟨[2, 3], [0, 0, 0, 1, 1, 1]⟩

/-- Two different rows of 3-D data. -/
def arrB : NDArray := ⟨[2, 3], [0, 0, 0, 2, 2, 2]⟩

/-- A fully initialized boundary, ready to fit. -/
def b3 : Boundary :=
  { Boundary.new with degree := some 1,
                      data := some arrA,
                      start := some (mkPoint [0, 0, 0]),
                      end_ := some (mkPoint [1, 1, 1]),
                      num_ctrlpts := some 4 }

/-- The straight-line initial curve of `b3`. -/
def cSpec : Curve := specInitCurve 1 0 0 0 1 1 1

/-- The state of `b3` after a fit with the concrete core instances. -/
def b3fit : Boundary :=
  { b3 with init_curve := some cSpec,
            fit_curve := some cSpec,
            parameterized_data := some ⟨[], []⟩ }

/-- One row of 3-D data. -/
def arr13 : NDArray := ⟨[1, 3], [0, 0, 0]⟩

/-- A boundary holding 3-D data and nothing else. -/
def b8 : Boundary := { Boundary.new with data := some arr13 }

/-- The state of `b3` after one `parameterize` call. -/
def b3param : Boundary :=
  { b3 with init_curve := some cSpec,
            parameterized_data := some ⟨[], []⟩ }

section Lemmas

/-- `linspace` over `d+1` samples in closed form with denominator `d`. -/
theorem linspace_succ (a b : ℚ) (d : Nat) :
    linspace a b (d + 1)
      = (List.range (d + 1)).map (fun i : ℕ => a + (i : ℚ) * (b - a) / (d : ℚ)) := by
  unfold linspace
  congr 1
  funext i
  push_cast
  ring_nf

/-- Zipping three mapped copies of a list and rebuilding rows is a
single map. -/
theorem zip3_map {α β : Type} (l : List α) (fx fy fz : α → β) :
    (((l.map fx).zip ((l.map fy).zip (l.map fz))).map
        (fun p => [p.1, p.2.1, p.2.2]))
      = l.map (fun i => [fx i, fy i, fz i]) := by
  induction l with
  | nil => rfl
  | cons a t ih => simpa using ih

/-- Index 0 of a 3-coordinate point. -/
theorem mkPoint3_item0 (x y z : ℚ) : (mkPoint [x, y, z]).item 0 = some x := rfl

/-- Index 1 of a 3-coordinate point. -/
theorem mkPoint3_item1 (x y z : ℚ) : (mkPoint [x, y, z]).item 1 = some y := rfl

/-- Index 2 of a 3-coordinate point. -/
theorem mkPoint3_item2 (x y z : ℚ) : (mkPoint [x, y, z]).item 2 = some z := rfl

/-- Under 3-D anchors, `initCurveOf` builds exactly the spec's
straight-line curve. -/
theorem initCurveOf_eq_spec (b : Boundary) (d : Nat) (s0 s1 s2 e0 e1 e2 : ℚ)
    (hd : b.degree = some d)
    (hs : b.start = some (mkPoint [s0, s1, s2]))
    (he : b.end_ = some (mkPoint [e0, e1, e2])) :
    b.initCurveOf = some (specInitCurve d s0 s1 s2 e0 e1 e2) := by
  unfold Boundary.initCurveOf
  rw [hd, hs, he]
  simp only [Option.bind_eq_bind, Option.some_bind,
    mkPoint3_item0, mkPoint3_item1, mkPoint3_item2]
  rw [linspace_succ, linspace_succ, linspace_succ, zip3_map]
  simp only [specInitCurve, List.length_map, List.length_range,
    Option.some.injEq]

/-- `parameterize` when no curve exists yet. -/
theorem parameterize_of_no_curve (paramF : Curve → Option NDArray → NDArray)
    (b : Boundary) (hi : b.init_curve = none) (hf : b.fit_curve = none) :
    b.parameterize paramF = b.initCurveOf.map (fun c =>
      { b with init_curve := some c,
               parameterized_data := some (paramF c b.data) }) := by
  simp [Boundary.parameterize, hi, hf]

/-- `parameterize` when only the initial curve exists. -/
theorem parameterize_of_init_only (paramF : Curve → Option NDArray → NDArray)
    (b : Boundary) (c : Curve) (hi : b.init_curve = some c)
    (hf : b.fit_curve = none) :
    b.parameterize paramF
      = some { b with parameterized_data := some (paramF c b.data) } := by
  simp [Boundary.parameterize, hi, hf]

/-- `parameterize` when the fit curve exists. -/
theorem parameterize_of_fit_some (paramF : Curve → Option NDArray → NDArray)
    (b : Boundary) (f : Curve) (hf : b.fit_curve = some f) :
    b.parameterize paramF
      = some { b with parameterized_data := some (paramF f b.data) } := by
  cases hi : b.init_curve <;> simp [Boundary.parameterize, hi, hf]

/-- `fit` when the initial curve already exists. -/
theorem fit_of_init_some (paramF : Curve → Option NDArray → NDArray)
    (fitF : Curve → Option NDArray → Option Int → Curve)
    (b : Boundary) (c : Curve) (hc : b.init_curve = some c) :
    b.fit paramF fitF
      = some { b with fit_curve := some (fitF c b.data b.num_ctrlpts),
                      parameterized_data :=
                        some (paramF (fitF c b.data b.num_ctrlpts) b.data) } := by
  have h1 : b.fit paramF fitF = Boundary.parameterize paramF
      { b with fit_curve := some (fitF c b.data b.num_ctrlpts) } := by
    simp [Boundary.fit, hc]
  rw [h1, parameterize_of_fit_some _ _ _ rfl]

/-- `fit` when the initial curve is missing: it is synthesized first,
whether or not a fit curve already exists. -/
theorem fit_of_init_none (paramF : Curve → Option NDArray → NDArray)
    (fitF : Curve → Option NDArray → Option Int → Curve)
    (b : Boundary) (hc : b.init_curve = none) :
    b.fit paramF fitF = b.initCurveOf.map (fun c =>
      { b with init_curve := some c,
               fit_curve := some (fitF c b.data b.num_ctrlpts),
               parameterized_data :=
                 some (paramF (fitF c b.data b.num_ctrlpts) b.data) }) := by
  cases hic : b.initCurveOf with
  | none => simp [Boundary.fit, Boundary.set_init_curve, hc, hic]
  | some c =>
    have h1 : b.fit paramF fitF = Boundary.parameterize paramF
        { b with init_curve := some c,
                 fit_curve := some (fitF c b.data b.num_ctrlpts) } := by
      simp [Boundary.fit, Boundary.set_init_curve, hc, hic]
    rw [h1, parameterize_of_fit_some _ _ _ rfl]
    simp

/-- API invariant: `Boundary.new` satisfies "fit curve set → initial
curve set", and every operation of the container preserves it, so the
invariant holds in every reachable state. -/
theorem curve_invariant_preserved (paramF : Curve → Option NDArray → NDArray)
    (fitF : Curve → Option NDArray → Option Int → Curve) (b : Boundary)
    (hb : b.fit_curve ≠ none → b.init_curve ≠ none) :
    (Boundary.new.fit_curve ≠ none → Boundary.new.init_curve ≠ none) ∧
    (∀ a b', b.setData a = Except.ok b' →
      (b'.fit_curve ≠ none → b'.init_curve ≠ none)) ∧
    (∀ p b', b.setStart p = Except.ok b' →
      (b'.fit_curve ≠ none → b'.init_curve ≠ none)) ∧
    (∀ p b', b.setEnd p = Except.ok b' →
      (b'.fit_curve ≠ none → b'.init_curve ≠ none)) ∧
    (∀ n b', b.setNumCtrlpts n = Except.ok b' →
      (b'.fit_curve ≠ none → b'.init_curve ≠ none)) ∧
    (∀ n b', b.setDegree n = Except.ok b' →
      (b'.fit_curve ≠ none → b'.init_curve ≠ none)) ∧
    (∀ b', b.set_init_curve = some b' →
      (b'.fit_curve ≠ none → b'.init_curve ≠ none)) ∧
    (∀ b', b.parameterize paramF = some b' →
      (b'.fit_curve ≠ none → b'.init_curve ≠ none)) ∧
    (∀ b', b.fit paramF fitF = some b' →
      (b'.fit_curve ≠ none → b'.init_curve ≠ none)) := by
  refine ⟨by simp [Boundary.new], ?_, ?_, ?_, ?_, ?_, ?_, ?_, ?_⟩
  · intro a b' h
    simp only [Boundary.setData] at h
    split_ifs at h
    simp_all
    subst h
    exact hb
  · intro p b' h
    simp only [Boundary.setStart] at h
    split_ifs at h
    simp_all
    subst h
    exact hb
  · intro p b' h
    simp only [Boundary.setEnd] at h
    split_ifs at h
    simp_all
    subst h
    exact hb
  · intro n b' h
    simp only [Boundary.setNumCtrlpts] at h
    split_ifs at h
    simp_all
    subst h
    exact hb
  · intro n b' h
    simp only [Boundary.setDegree] at h
    split_ifs at h
    simp_all
    subst h
    exact hb
  · intro b' h
    simp only [Boundary.set_init_curve, Option.map_eq_some'] at h
    obtain ⟨c, _, rfl⟩ := h
    intro _
    simp
  · intro b' h
    cases hf : b.fit_curve with
    | some f =>
      rw [parameterize_of_fit_some paramF b f hf] at h
      injection h with h
      subst h
      intro _
      exact hb (by simp [hf])
    | none =>
      cases hi : b.init_curve with
      | some c =>
        rw [parameterize_of_init_only paramF b c hi hf] at h
        injection h with h
        subst h
        intro _
        simp [hi]
      | none =>
        rw [parameterize_of_no_curve paramF b hi hf] at h
        simp only [Option.map_eq_some'] at h
        obtain ⟨c, _, rfl⟩ := h
        intro _
        simp
  · intro b' h
    cases hi : b.init_curve with
    | some c =>
      rw [fit_of_init_some paramF fitF b c hi] at h
      injection h with h
      subst h
      intro _
      simp [hi]
    | none =>
      rw [fit_of_init_none paramF fitF b hi] at h
      simp only [Option.map_eq_some'] at h
      obtain ⟨c, _, rfl⟩ := h
      intro _
      simp

/-- The initial curve of the concrete boundary `b3`. -/
theorem b3_initCurveOf : b3.initCurveOf = some cSpec :=
  initCurveOf_eq_spec b3 1 0 0 0 1 1 1 rfl rfl rfl

/-- Evaluating `parameterize` on `b3`. -/
theorem b3_parameterize : b3.parameterize paramF0 = some b3param := by
  rw [parameterize_of_no_curve paramF0 b3 rfl rfl, b3_initCurveOf]
  rfl

/-- A second `parameterize` call leaves `b3param` unchanged. -/
theorem b3param_parameterize : b3param.parameterize paramF0 = some b3param := by
  rw [parameterize_of_init_only paramF0 b3param cSpec rfl rfl]
  rfl

/-- Evaluating `fit` on `b3`. -/
theorem b3_fit : b3.fit paramF0 fitF0 = some b3fit := by
  rw [fit_of_init_none paramF0 fitF0 b3 rfl, b3_initCurveOf]
  rfl

end Lemmas

section Claims

/-- Claim C1, counterexample: validation of `num_ctrlpts` does not
depend on the degree.  A `Boundary` carrying degree 5 (set through the
spec-modelled degree setter) accepts `num_ctrlpts = 4` even though
`4 ≤ 5`, so an assignment can succeed without the control-point count
exceeding the degree. -/
theorem C1_num_ctrlpts_ignores_degree :
    (Boundary.new.setDegree 5).toOption = some bDeg5 ∧ bDeg5.degree = some 5 ∧
    okB (bDeg5.setNumCtrlpts 4) = true ∧ (4 : Int) ≤ 5 := by decide

/-- Claim C1, amended: assignment to `num_ctrlpts` succeeds exactly when
the (int-cast) value is strictly greater than 3, independent of the
degree the `Boundary` carries; otherwise it fails with a `ValueError`
and the state is unchanged. -/
theorem C1_num_ctrlpts_gt3 (b : Boundary) (num : Int) :
    (3 < num →
      b.setNumCtrlpts num = Except.ok { b with num_ctrlpts := some num }) ∧
    (num ≤ 3 →
      b.setNumCtrlpts num
        = Except.error "Number of control points must be 3 or more") := by
  refine ⟨fun h => ?_, fun h => ?_⟩
  · simp only [Boundary.setNumCtrlpts, if_neg (by omega : ¬ num ≤ 3)]
  · simp only [Boundary.setNumCtrlpts, if_pos h]

/-- Witness for C1 at `num = 4` on a degree-5 boundary. -/
theorem C1_num_ctrlpts_gt3_inst :
    bDeg5.setNumCtrlpts 4 = Except.ok { bDeg5 with num_ctrlpts := some 4 } :=
  (C1_num_ctrlpts_gt3 bDeg5 4).1 (by decide)

/-- Claim C2, code-bug evaluation: the anchor setters accept R² points,
yet `set_init_curve` reads index 2 of both anchors unconditionally, so
for length-2 anchors it raises an `IndexError` (modelled as `none`)
instead of producing the initial straight-line curve.  The state `b2d`
below is reached through the public setters with R² anchors. -/
theorem C2_r2_anchor_index_error :
    ((Boundary.new.setDegree 3).toOption.bind (fun b =>
        (b.setStart (mkPoint [0, 0])).toOption)).bind (fun b =>
        (b.setEnd (mkPoint [1, 1])).toOption) = some b2d ∧
    b2d.set_init_curve = none ∧
    (mkPoint [0, 0]).shape.headD 0 = 2 := by decide

/-- Claim C3, counterexample: the stored data is not immutable once
fitting has begun.  After `fit` succeeds on `b3`, assigning a different
well-shaped array through the `data` setter succeeds and replaces the
stored point cloud. -/
theorem C3_data_mutable_after_fit :
    b3.fit paramF0 fitF0 = some b3fit ∧
    b3fit.data = some arrA ∧
    (b3fit.setData arrB).toOption = some { b3fit with data := some arrB } ∧
    arrB ≠ arrA :=
  ⟨b3_fit, rfl, rfl, by decide⟩

/-- Claim C3, amended: the `data` setter enforces no immutability after
`fit`: in any post-fit state, assigning any 2-D array with last
dimension 2 or 3 succeeds and replaces the stored data, exactly as
before fitting. -/
theorem C3_data_setter_after_fit (paramF : Curve → Option NDArray → NDArray)
    (fitF : Curve → Option NDArray → Option Int → Curve)
    (b b' : Boundary) (a : NDArray)
    (_hfit : b.fit paramF fitF = some b')
    (h2 : a.ndim = 2)
    (h23 : a.shape.getLastD 0 = 2 ∨ a.shape.getLastD 0 = 3) :
    b'.setData a = Except.ok { b' with data := some a } := by
  simp only [Boundary.setData, if_neg (not_not_intro h2),
    if_neg (not_not_intro h23)]

/-- Witness for C3 on the concrete post-fit state `b3fit`. -/
theorem C3_data_setter_after_fit_inst :
    b3fit.setData arrB = Except.ok { b3fit with data := some arrB } :=
  C3_data_setter_after_fit paramF0 fitF0 b3 b3fit arrB b3_fit (by decide)
    (by decide)

/-- Claim C4: `fit` runs the documented pipeline.  Whenever it succeeds,
the initial curve is the pre-existing one or, if none existed, the one
freshly synthesized; the fitter is called on (initial curve, data,
target control-point count); its result is stored as the fit curve; and
`parameterized_data` is computed against that fitted curve. -/
theorem C4_fit_pipeline (paramF : Curve → Option NDArray → NDArray)
    (fitF : Curve → Option NDArray → Option Int → Curve)
    (b b' : Boundary) (h : b.fit paramF fitF = some b') :
    ∃ c, b'.init_curve = some c ∧
      (b.init_curve = some c ∨ (b.init_curve = none ∧ b.initCurveOf = some c)) ∧
      b'.fit_curve = some (fitF c b.data b.num_ctrlpts) ∧
      b'.parameterized_data
        = some (paramF (fitF c b.data b.num_ctrlpts) b.data) := by
  cases hc : b.init_curve with
  | some c =>
    rw [fit_of_init_some paramF fitF b c hc] at h
    injection h with h
    subst h
    exact ⟨c, hc, Or.inl rfl, rfl, rfl⟩
  | none =>
    rw [fit_of_init_none paramF fitF b hc] at h
    simp only [Option.map_eq_some'] at h
    obtain ⟨c, hic, rfl⟩ := h
    exact ⟨c, rfl, Or.inr ⟨rfl, hic⟩, rfl, rfl⟩

/-- Witness for C4 on the concrete boundary `b3`. -/
theorem C4_fit_pipeline_inst :
    ∃ c, b3fit.init_curve = some c ∧
      (b3.init_curve = some c ∨
        (b3.init_curve = none ∧ b3.initCurveOf = some c)) ∧
      b3fit.fit_curve = some (fitF0 c b3.data b3.num_ctrlpts) ∧
      b3fit.parameterized_data
        = some (paramF0 (fitF0 c b3.data b3.num_ctrlpts) b3.data) :=
  C4_fit_pipeline paramF0 fitF0 b3 b3fit b3_fit

/-- Claim C5: `parameterize` targets the fitted curve when one exists
and the initial curve otherwise. -/
theorem C5_parameterize_dispatch (paramF : Curve → Option NDArray → NDArray)
    (b b' : Boundary) (h : b.parameterize paramF = some b') :
    (∀ f, b.fit_curve = some f →
      b'.parameterized_data = some (paramF f b.data)) ∧
    (b.fit_curve = none → ∀ c, b.init_curve = some c →
      b'.parameterized_data = some (paramF c b.data)) := by
  constructor
  · intro f hf
    rw [parameterize_of_fit_some paramF b f hf] at h
    injection h with h
    subst h
    rfl
  · intro hf c hc
    rw [parameterize_of_init_only paramF b c hc hf] at h
    injection h with h
    subst h
    rfl

/-- Witness for C5 on the concrete state `b3param` (initial curve only). -/
theorem C5_parameterize_dispatch_inst :
    b3param.parameterized_data = some (paramF0 cSpec b3param.data) :=
  (C5_parameterize_dispatch paramF0 b3param b3param b3param_parameterize).2
    rfl cSpec rfl

/-- Claim C6: the initial curve is synthesized lazily.  In a state
satisfying the API invariant "fit curve set → initial curve set" (shown
reachable-state-invariant in `curve_invariant_preserved`), with degree
`d` and 3-D anchors: when no curve exists, `parameterize` and `fit`
each store `specInitCurve` — the curve with `d+1` control points evenly
spaced from the start anchor to the end anchor and knot vector
`generate_uniform d (d+1)`; when a curve already exists, the stored
initial curve is left untouched. -/
theorem C6_lazy_init_curve (paramF : Curve → Option NDArray → NDArray)
    (fitF : Curve → Option NDArray → Option Int → Curve)
    (b : Boundary) (d : Nat) (s0 s1 s2 e0 e1 e2 : ℚ)
    (hinv : b.fit_curve ≠ none → b.init_curve ≠ none)
    (hd : b.degree = some d)
    (hs : b.start = some (mkPoint [s0, s1, s2]))
    (he : b.end_ = some (mkPoint [e0, e1, e2])) :
    (∀ cps, (specInitCurve d s0 s1 s2 e0 e1 e2).control_points = some cps →
      cps.length = d + 1) ∧
    (b.init_curve = none → b.fit_curve = none →
      (∀ b', b.parameterize paramF = some b' →
        b'.init_curve = some (specInitCurve d s0 s1 s2 e0 e1 e2)) ∧
      (∀ b', b.fit paramF fitF = some b' →
        b'.init_curve = some (specInitCurve d s0 s1 s2 e0 e1 e2))) ∧
    ((b.init_curve ≠ none ∨ b.fit_curve ≠ none) →
      (∀ b', b.parameterize paramF = some b' →
        b'.init_curve = b.init_curve) ∧
      (∀ b', b.fit paramF fitF = some b' → b'.init_curve = b.init_curve)) := by
  have hspec := initCurveOf_eq_spec b d s0 s1 s2 e0 e1 e2 hd hs he
  refine ⟨?_, fun hi hf => ⟨?_, ?_⟩, fun hor => ⟨?_, ?_⟩⟩
  · intro cps hcps
    simp only [specInitCurve, Option.some.injEq] at hcps
    subst hcps
    simp
  · intro b' h
    rw [parameterize_of_no_curve paramF b hi hf, hspec] at h
    injection h with h
    subst h
    rfl
  · intro b' h
    rw [fit_of_init_none paramF fitF b hi, hspec] at h
    injection h with h
    subst h
    rfl
  · intro b' h
    rcases hi : b.init_curve with _ | c
    · rcases hor with hor | hor
      · exact absurd hi hor
      · exact absurd hi (hinv hor)
    · cases hf : b.fit_curve with
      | none =>
        rw [parameterize_of_init_only paramF b c hi hf] at h
        injection h with h
        subst h
        exact hi
      | some f =>
        rw [parameterize_of_fit_some paramF b f hf] at h
        injection h with h
        subst h
        exact hi
  · intro b' h
    rcases hi : b.init_curve with _ | c
    · rcases hor with hor | hor
      · exact absurd hi hor
      · exact absurd hi (hinv hor)
    · rw [fit_of_init_some paramF fitF b c hi] at h
      injection h with h
      subst h
      exact hi

/-- Witness for C6 on the concrete boundary `b3` (no curve yet). -/
theorem C6_lazy_init_curve_inst :
    b3param.init_curve = some (specInitCurve 1 0 0 0 1 1 1) :=
  ((C6_lazy_init_curve paramF0 fitF0 b3 1 0 0 0 1 1 1 (by decide) rfl rfl
    rfl).2.1 rfl rfl).1 b3param b3_parameterize

/-- Claim C7: assignment to `data` succeeds exactly when the input is a
2-dimensional array whose last dimension is 2 or 3; on success the new
state holds exactly the input and nothing else changes; otherwise a
`ValueError` is raised and no state is produced. -/
theorem C7_data_setter_spec (b : Boundary) (a : NDArray) :
    (okB (b.setData a) = true ↔
      a.ndim = 2 ∧ (a.shape.getLastD 0 = 2 ∨ a.shape.getLastD 0 = 3)) ∧
    (∀ b', b.setData a = Except.ok b' → b' = { b with data := some a }) := by
  constructor
  · simp only [Boundary.setData]
    split_ifs with h1 h2
    · exact iff_of_false (by simp [okB]) (fun hP => absurd hP.1 h1)
    · exact iff_of_true (by simp [okB]) ⟨not_not.mp h1, h2⟩
    · exact iff_of_false (by simp [okB]) (fun hP => absurd hP.2 h2)
  · intro b' h
    simp only [Boundary.setData] at h
    split_ifs at h
    injection h with h
    exact h.symm

/-- Witness for C7 on a well-shaped concrete array. -/
theorem C7_data_setter_spec_inst : okB (Boundary.new.setData arrA) = true :=
  (C7_data_setter_spec Boundary.new arrA).1.mpr (by decide)

/-- Claim C8, counterexample: the anchor setters never compare the point
with the stored data.  A boundary holding 3-D data accepts a start
anchor of length 2, although the claim requires a mismatched
dimensionality to be rejected. -/
theorem C8_anchor_dim_mismatch_accepted :
    (Boundary.new.setData arr13).toOption = some b8 ∧
    b8.data = some arr13 ∧ arr13.shape.getLastD 0 = 3 ∧
    (b8.setStart (mkPoint [0, 0])).toOption
      = some { b8 with start := some (mkPoint [0, 0]) } ∧
    (mkPoint [0, 0]).shape.headD 0 = 2 := by decide

/-- Claim C8, amended: assigning a start or end anchor succeeds exactly
when the point is a 1-dimensional array of length 2 or 3, regardless of
the dimensionality of the stored data; on success the point is stored
unchanged. -/
theorem C8_anchor_setters_spec (b : Boundary) (p : NDArray) :
    (okB (b.setStart p) = true ↔
      p.ndim = 1 ∧ (p.shape.headD 0 = 2 ∨ p.shape.headD 0 = 3)) ∧
    (okB (b.setEnd p) = true ↔
      p.ndim = 1 ∧ (p.shape.headD 0 = 2 ∨ p.shape.headD 0 = 3)) ∧
    (∀ b', b.setStart p = Except.ok b' → b' = { b with start := some p }) ∧
    (∀ b', b.setEnd p = Except.ok b' → b' = { b with end_ := some p }) := by
  refine ⟨?_, ?_, ?_, ?_⟩
  · simp only [Boundary.setStart]
    split_ifs with h1 h2
    · exact iff_of_false (by simp [okB]) (fun hP => absurd hP.1 h1)
    · exact iff_of_true (by simp [okB]) ⟨not_not.mp h1, h2⟩
    · exact iff_of_false (by simp [okB]) (fun hP => absurd hP.2 h2)
  · simp only [Boundary.setEnd]
    split_ifs with h1 h2
    · exact iff_of_false (by simp [okB]) (fun hP => absurd hP.1 h1)
    · exact iff_of_true (by simp [okB]) ⟨not_not.mp h1, h2⟩
    · exact iff_of_false (by simp [okB]) (fun hP => absurd hP.2 h2)
  · intro b' h
    simp only [Boundary.setStart] at h
    split_ifs at h
    injection h with h
    exact h.symm
  · intro b' h
    simp only [Boundary.setEnd] at h
    split_ifs at h
    injection h with h
    exact h.symm

/-- Witness for C8 on a concrete length-3 point. -/
theorem C8_anchor_setters_spec_inst :
    okB (Boundary.new.setStart (mkPoint [0, 0, 0])) = true :=
  (C8_anchor_setters_spec Boundary.new (mkPoint [0, 0, 0])).1.mpr (by decide)

/-- Claim C9: re-parameterization is idempotent.  Any two successive
successful `parameterize` calls with the same (pure) core function yield
the same `parameterized_data`, since the second call targets the same
curve and the same data as the first. -/
theorem C9_parameterize_idempotent (paramF : Curve → Option NDArray → NDArray)
    (b b1 b2 : Boundary)
    (h1 : b.parameterize paramF = some b1)
    (h2 : b1.parameterize paramF = some b2) :
    b2.parameterized_data = b1.parameterized_data := by
  cases hf : b.fit_curve with
  | some f =>
    rw [parameterize_of_fit_some paramF b f hf] at h1
    injection h1 with h1
    subst h1
    rw [parameterize_of_fit_some paramF
      { b with parameterized_data := some (paramF f b.data) } f hf] at h2
    injection h2 with h2
    subst h2
    rfl
  | none =>
    cases hi : b.init_curve with
    | some c =>
      rw [parameterize_of_init_only paramF b c hi hf] at h1
      injection h1 with h1
      subst h1
      rw [parameterize_of_init_only paramF
        { b with parameterized_data := some (paramF c b.data) } c hi hf] at h2
      injection h2 with h2
      subst h2
      rfl
    | none =>
      rw [parameterize_of_no_curve paramF b hi hf] at h1
      simp only [Option.map_eq_some'] at h1
      obtain ⟨c, _, rfl⟩ := h1
      rw [parameterize_of_init_only paramF
        { b with init_curve := some c,
                 parameterized_data := some (paramF c b.data) } c rfl hf] at h2
      injection h2 with h2
      subst h2
      rfl

/-- Witness for C9 on two successive calls starting from `b3`. -/
theorem C9_parameterize_idempotent_inst :
    b3param.parameterized_data = b3param.parameterized_data :=
  C9_parameterize_idempotent paramF0 b3 b3param b3param b3_parameterize
    b3param_parameterize

/-- Claim C10, frame property: a successful `parameterize` leaves
`data`, `start`, `end`, `num_ctrlpts`, `fit_curve` and `degree`
untouched, and also leaves `init_curve` untouched whenever some curve
already existed. -/
theorem C10_parameterize_frame (paramF : Curve → Option NDArray → NDArray)
    (b b' : Boundary) (h : b.parameterize paramF = some b') :
    b'.data = b.data ∧ b'.start = b.start ∧ b'.end_ = b.end_ ∧
    b'.num_ctrlpts = b.num_ctrlpts ∧ b'.fit_curve = b.fit_curve ∧
    b'.degree = b.degree ∧
    ((b.init_curve ≠ none ∨ b.fit_curve ≠ none) →
      b'.init_curve = b.init_curve) := by
  cases hf : b.fit_curve with
  | some f =>
    rw [parameterize_of_fit_some paramF b f hf] at h
    injection h with h
    subst h
    exact ⟨rfl, rfl, rfl, rfl, hf, rfl, fun _ => rfl⟩
  | none =>
    cases hi : b.init_curve with
    | some c =>
      rw [parameterize_of_init_only paramF b c hi hf] at h
      injection h with h
      subst h
      exact ⟨rfl, rfl, rfl, rfl, hf, rfl, fun _ => hi⟩
    | none =>
      rw [parameterize_of_no_curve paramF b hi hf] at h
      simp only [Option.map_eq_some'] at h
      obtain ⟨c, _, rfl⟩ := h
      refine ⟨rfl, rfl, rfl, rfl, hf, rfl, fun hor => ?_⟩
      rcases hor with hor | hor
      · exact absurd rfl hor
      · exact absurd rfl hor

/-- Witness for C10 on the concrete state `b3param`. -/
theorem C10_parameterize_frame_inst : b3param.data = b3param.data :=
  (C10_parameterize_frame paramF0 b3param b3param b3param_parameterize).1

end Claims

end PySplineFit
